import Mathlib

/-!
Verification of the Manus agent core (state machine, agent loop, security
validator) against its natural-language specification.

The Python sources are shallowly embedded:
* Python `Any` / JSON-representable values are modelled by the inductive
  `Json` (JSON text and the parsed tree are identified; `int` and `float`
  are distinguished, as Python's `json` module round-trips them distinctly;
  floats are modelled by rationals).
* `datetime` values are modelled by their ISO-format strings;
  `datetime.utcnow()` becomes an explicit `now : String` argument.
* `uuid4()` becomes an explicit fresh-identifier argument.
* Python dicts are modelled by association lists in insertion order.
* Exceptions become `Except`; `re.search` over the validator's concrete
  pattern set is modelled by a small matcher covering exactly the regex
  constructs those patterns use; `shlex.split` (POSIX mode) is modelled by
  the corresponding state machine.
-/

namespace Manus

/-- Model of JSON-representable Python values (`Any` in the dataclasses). -/
inductive Json where
  | null : Json
  | bool (b : Bool) : Json
  | int (n : Int) : Json
  | num (q : ℚ) : Json
  | str (s : String) : Json
  | arr (xs : List Json) : Json
  | obj (fields : List (String × Json)) : Json

/-! ### Character and string helpers (Python semantics, ASCII fragment) -/

/-- ASCII whitespace characters stripped by `str.strip()` (ASCII fragment of
Python's unicode whitespace). -/
def isPyWs (c : Char) : Bool :=
  c == ' ' || c == '\t' || c == '\n' || c == '\r' || c == '\x0b' || c == '\x0c'

/-- ASCII lowercasing, as applied by `str.lower()` / `re.IGNORECASE` on the
ASCII patterns used in the validator. -/
def pyLowerChar (c : Char) : Char :=
  if 'A' ≤ c ∧ c ≤ 'Z' then Char.ofNat (c.toNat + 32) else c

def pyLower (s : List Char) : List Char := s.map pyLowerChar

/-- `str.strip()` on a character list. -/
def pyStrip (s : List Char) : List Char :=
  ((s.dropWhile isPyWs).reverse.dropWhile isPyWs).reverse

/-- Python word characters (`\w`, ASCII fragment). -/
def isWordChar (c : Char) : Bool :=
  ('a' ≤ c && c ≤ 'z') || ('A' ≤ c && c ≤ 'Z') || ('0' ≤ c && c ≤ '9') || c == '_'

/-! ### A matcher for the validator's regular expressions

Every regex in `SecurityValidator` is a sequence of single-character
classes with `?`-free quantifiers (`one`, `*`, `+`), plus the zero-width
`\b` used only after a word character.  We embed exactly that fragment. -/

/-- Single-character class appearing in the validator's patterns. -/
inductive CClass where
  | lit (c : Char)        -- a literal character
  | ws                    -- `\s`
  | any                   -- `.` (no DOTALL: does not match newline)
  | oneof (cs : List Char) -- a character class such as `[el]`
deriving DecidableEq

def CClass.matchc : CClass → Char → Bool
  | .lit c, d => c == d
  | .ws, d => isPyWs d
  | .any, d => d != '\n'
  | .oneof cs, d => cs.contains d

inductive RItem where
  | one (cls : CClass) : RItem      -- exactly one character
  | star (cls : CClass) : RItem     -- zero or more
  | plus (cls : CClass) : RItem     -- one or more
  | wordEnd : RItem                 -- `\b` placed after a word character
deriving DecidableEq

/-- All suffixes reachable from `s` by consuming zero or more characters
matching `cls` (the closure of a starred class). -/
def consumeAll (cls : CClass) : List Char → List (List Char)
  | [] => [[]]
  | c :: s => (c :: s) :: (if cls.matchc c then consumeAll cls s else [])

/-- Suffixes reachable from `s` across one item. -/
def stepItem (it : RItem) (s : List Char) : List (List Char) :=
  match it with
  | .one cls =>
      match s with
      | [] => []
      | c :: rest => if cls.matchc c then [rest] else []
  | .star cls => consumeAll cls s
  | .plus cls =>
      match s with
      | [] => []
      | c :: rest => if cls.matchc c then consumeAll cls rest else []
  | .wordEnd =>
      match s with
      | [] => [[]]
      | c :: rest => if isWordChar c then [] else [c :: rest]

/-- Run the item sequence over a set of positions (suffixes). -/
def runItems : List RItem → List (List Char) → List (List Char)
  | [], poss => poss
  | it :: rest, poss => runItems rest (poss.flatMap (stepItem it))

/-- Does the item sequence match a prefix of `s` (anchored here)? -/
def matchHere (pat : List RItem) (s : List Char) : Bool :=
  !(runItems pat [s]).isEmpty

/-- `re.search`: does the pattern match at some position of `s`? -/
def research (pat : List RItem) : List Char → Bool
  | [] => matchHere pat []
  | c :: s => matchHere pat (c :: s) || research pat s

/-- Literal characters, one item each. -/
def lits (s : String) : List RItem := s.data.map (fun c => RItem.one (.lit c))

def wsPlus : RItem := .plus .ws
def wsStar : RItem := .star .ws
def dotStar : RItem := .star .any

/-! ### SecurityValidator: command tables -/

/-- `SecurityValidator.ALLOWED_COMMANDS`. -/
def ALLOWED_COMMANDS : List String :=
  ["ls", "pwd", "echo", "cat", "grep", "find", "head", "tail",
   "wc", "sort", "uniq", "cut", "awk", "sed", "git", "pip",
   "python", "python3", "node", "npm", "curl", "wget", "mkdir",
   "touch", "cp", "mv", "chmod", "which", "whoami", "date"]

/-- `SecurityValidator.FORBIDDEN_PATTERNS`: each regex of the source, paired
with its source text (used in the error message). -/
def FORBIDDEN_PATTERNS : List (String × List RItem) :=
  [ ("rm\\s+-rf",         lits "rm" ++ [wsPlus] ++ lits "-rf"),
    ("rm\\s+--recursive", lits "rm" ++ [wsPlus] ++ lits "--recursive"),
    (";\\s*rm",           lits ";" ++ [wsStar] ++ lits "rm"),
    ("\\|\\s*sh",         lits "|" ++ [wsStar] ++ lits "sh"),
    ("\\|\\s*bash",       lits "|" ++ [wsStar] ++ lits "bash"),
    (">\\s*/dev/",        lits ">" ++ [wsStar] ++ lits "/dev/"),
    ("curl.*\\|.*sh",     lits "curl" ++ [dotStar] ++ lits "|" ++ [dotStar] ++ lits "sh"),
    ("wget.*\\|.*sh",     lits "wget" ++ [dotStar] ++ lits "|" ++ [dotStar] ++ lits "sh"),
    ("eval\\s*\\(",       lits "eval" ++ [wsStar] ++ lits "("),
    ("exec\\s*\\(",       lits "exec" ++ [wsStar] ++ lits "("),
    ("__import__",        lits "__import__"),
    ("subprocess\\.",     lits "subprocess."),
    ("os\\.system",       lits "os.system"),
    ("os\\.popen",        lits "os.popen"),
    ("dd\\s+if=",         lits "dd" ++ [wsPlus] ++ lits "if="),
    ("mkfs\\.",           lits "mkfs."),
    ("fdisk",             lits "fdisk"),
    ("mount\\s+",         lits "mount" ++ [wsPlus]),
    ("umount\\s+",        lits "umount" ++ [wsPlus]),
    ("sudo\\s+",          lits "sudo" ++ [wsPlus]),
    ("su\\s+",            lits "su" ++ [wsPlus]),
    ("passwd\\s+",        lits "passwd" ++ [wsPlus]),
    ("chown\\s+",         lits "chown" ++ [wsPlus]),
    ("chgrp\\s+",         lits "chgrp" ++ [wsPlus]),
    ("systemctl\\s+",     lits "systemctl" ++ [wsPlus]),
    ("service\\s+",       lits "service" ++ [wsPlus]),
    ("crontab\\s+",       lits "crontab" ++ [wsPlus]),
    ("nc\\s+.*-[el]",     lits "nc" ++ [wsPlus, dotStar] ++ lits "-" ++ [.one (.oneof ['e', 'l'])]),
    ("netcat\\s+.*-[el]", lits "netcat" ++ [wsPlus, dotStar] ++ lits "-" ++ [.one (.oneof ['e', 'l'])]),
    ("/etc/passwd",       lits "/etc/passwd"),
    ("/etc/shadow",       lits "/etc/shadow"),
    ("/root/",            lits "/root/"),
    ("\\.\\./",           lits "../"),
    ("\\.\\./\\.\\.",     lits "../..")]

/-- First forbidden pattern matching the command under `re.IGNORECASE`
(patterns are all lowercase ASCII, so matching the lowercased command is
equivalent). -/
def findForbidden (command : List Char) : Option String :=
  (FORBIDDEN_PATTERNS.find? (fun p => research p.2 (pyLower command))).map (·.1)

/-! ### `shlex.split` (POSIX mode, whitespace_split)

State machine of CPython's `shlex.read_token` restricted to the
configuration `shlex.split` uses: posix=True, whitespace_split=True,
whitespace ` \t\r\n`, quotes `'"`, escape `\`, escapedquotes `"`. -/

def isShlexWs (c : Char) : Bool :=
  c == ' ' || c == '\t' || c == '\r' || c == '\n'

inductive ShlexState where
  | plain   -- outside quotes
  | single  -- inside '...'
  | double  -- inside "..."

/-- One pass of the shlex state machine.  `tok = some t` means a token is in
progress (possibly empty, if it saw a quote).  Errors are the `ValueError`s
CPython raises: unclosed quote, dangling escape. -/
def shlexRun : List Char → ShlexState → Option (List Char) → List (List Char) →
    Except String (List (List Char))
  | [], .plain, tok, acc =>
      match tok with
      | none => .ok acc.reverse
      | some t => .ok (acc.reverse ++ [t.reverse])
  | [], .single, _, _ => .error "No closing quotation"
  | [], .double, _, _ => .error "No closing quotation"
  | c :: s, .plain, tok, acc =>
      if isShlexWs c then
        match tok with
        | none => shlexRun s .plain none acc
        | some t => shlexRun s .plain none (t.reverse :: acc)
      else if c == '\'' then
        shlexRun s .single (some (tok.getD [])) acc
      else if c == '"' then
        shlexRun s .double (some (tok.getD [])) acc
      else if c == '\\' then
        match s with
        | [] => .error "No escaped character"
        | d :: s' => shlexRun s' .plain (some (d :: tok.getD [])) acc
      else
        shlexRun s .plain (some (c :: tok.getD [])) acc
  | c :: s, .single, tok, acc =>
      if c == '\'' then shlexRun s .plain tok acc
      else shlexRun s .single (some (c :: tok.getD [])) acc
  | c :: s, .double, tok, acc =>
      if c == '"' then shlexRun s .plain tok acc
      else if c == '\\' then
        match s with
        | [] => .error "No escaped character"
        | d :: s' =>
            if d == '"' || d == '\\' then
              shlexRun s' .double (some (d :: tok.getD [])) acc
            else
              shlexRun s' .double (some (d :: '\\' :: tok.getD [])) acc
      else shlexRun s .double (some (c :: tok.getD [])) acc

/-- `shlex.split(command)` in POSIX mode. -/
def shlexSplit (s : List Char) : Except String (List (List Char)) :=
  shlexRun s .plain none []

/-! ### Errors raised by the validator -/

/-- `SecurityError(message, violation_type, attempted_action)`. -/
structure SecurityErr where
  message : String
  violationType : String
  attemptedAction : Option String
deriving DecidableEq, Repr

/-- Violation type of a validator outcome (`None` when no error was raised). -/
def violationOf {α : Type} : Except SecurityErr α → Option String
  | .error e => some e.violationType
  | .ok _ => none

/-! ### `urllib.parse.urlparse` (scheme and netloc only) -/

/-- A scheme is `[a-zA-Z][a-zA-Z0-9+.-]*`. -/
def validScheme : List Char → Bool
  | [] => false
  | c :: s => c.isAlpha && s.all (fun d => d.isAlphanum || d == '+' || d == '-' || d == '.')

/-- Split at the first occurrence of `sep`, if any. -/
def splitFirst (sep : Char) : List Char → Option (List Char × List Char)
  | [] => none
  | c :: s =>
      if c == sep then some ([], s)
      else (splitFirst sep s).map (fun p => (c :: p.1, p.2))

/-- `urlparse(url)`: the `(scheme, netloc)` projection.  The scheme is
lowercased (as `urlparse` does); the netloc keeps its case.  (CPython's
removal of stray tab/newline bytes before parsing is not modelled.) -/
def urlparse (url : String) : String × String :=
  let cs := url.data
  let (scheme, rest) :=
    match splitFirst ':' cs with
    | some (before, after) =>
        if validScheme before then (pyLower before, after) else (([] : List Char), cs)
    | none => ([], cs)
  let netloc :=
    match rest with
    | '/' :: '/' :: r => r.takeWhile (fun c => c != '/' && c != '?' && c != '#')
    | _ => []
  (String.mk scheme, String.mk netloc)

/-! ### Python `int()` on strings -/

def pyDigitsAux (acc : Nat) : List Char → Option Nat
  | [] => some acc
  | '_' :: c :: s =>
      if c.isDigit then pyDigitsAux (acc * 10 + (c.toNat - 48)) s else none
  | c :: s =>
      if c.isDigit then pyDigitsAux (acc * 10 + (c.toNat - 48)) s else none

/-- Digit run with Python's underscore rule (between digits only). -/
def pyDigits : List Char → Option Nat
  | [] => none
  | c :: s => if c.isDigit then pyDigitsAux (c.toNat - 48) s else none

/-- `int(s)`: optional surrounding whitespace and sign, then digits.
`none` models the `ValueError`. -/
def pyParseInt (s : List Char) : Option Int :=
  match pyStrip s with
  | '+' :: r => (pyDigits r).map Int.ofNat
  | '-' :: r => (pyDigits r).map (fun n => -(n : Int))
  | r => (pyDigits r).map Int.ofNat

/-! ### `SecurityValidator.validate_network_request` -/

/-- The domain membership test of the source: equal to an allowed domain or
ending in `"." + allowed`. -/
def domainAllowed (allowedDomains : List String) (d : List Char) : Bool :=
  allowedDomains.any (fun a => d == a.data || List.isSuffixOf ('.' :: a.data) d)

/-- `validate_network_request(url)`, parameterised by the security config's
`allowed_domains` and `blocked_ports`. -/
def validate_network_request (allowedDomains : List String) (blockedPorts : List Int)
    (url : String) : Except SecurityErr Unit :=
  let parsed := urlparse url
  if ¬ (parsed.1 = "http" ∨ parsed.1 = "https") then
    .error ⟨"Protocol not allowed", "unauthorized_protocol", some ("request " ++ url)⟩
  else
    let domain := pyLower parsed.2.data
    let checkDomain : List Char → Except SecurityErr Unit := fun d =>
      if domainAllowed allowedDomains d then .ok ()
      else .error ⟨"Domain is not in allowed list", "unauthorized_domain",
                   some ("request " ++ url)⟩
    match splitFirst ':' domain with
    | some (d, portStr) =>
        match pyParseInt portStr with
        | some port =>
            if blockedPorts.contains port then
              .error ⟨"Port is blocked", "blocked_port", some ("request " ++ url)⟩
            else checkDomain d
        | none =>
            .error ⟨"Invalid port in URL", "invalid_port", some ("request " ++ url)⟩
    | none => checkDomain domain

/-! ### `SecurityValidator.validate_python_code` -/

/-- The `dangerous_patterns` of `validate_python_code`. -/
def DANGEROUS_CODE_PATTERNS : List (String × List RItem) :=
  [ ("import\\s+os\\b", lits "import" ++ [wsPlus] ++ lits "os" ++ [.wordEnd]),
    ("from\\s+os\\s+import", lits "from" ++ [wsPlus] ++ lits "os" ++ [wsPlus] ++ lits "import"),
    ("import\\s+subprocess\\b", lits "import" ++ [wsPlus] ++ lits "subprocess" ++ [.wordEnd]),
    ("from\\s+subprocess\\s+import",
      lits "from" ++ [wsPlus] ++ lits "subprocess" ++ [wsPlus] ++ lits "import"),
    ("import\\s+sys\\b", lits "import" ++ [wsPlus] ++ lits "sys" ++ [.wordEnd]),
    ("from\\s+sys\\s+import", lits "from" ++ [wsPlus] ++ lits "sys" ++ [wsPlus] ++ lits "import"),
    ("__import__\\s*\\(", lits "__import__" ++ [wsStar] ++ lits "("),
    ("eval\\s*\\(", lits "eval" ++ [wsStar] ++ lits "("),
    ("exec\\s*\\(", lits "exec" ++ [wsStar] ++ lits "("),
    ("compile\\s*\\(", lits "compile" ++ [wsStar] ++ lits "("),
    ("open\\s*\\(", lits "open" ++ [wsStar] ++ lits "("),
    ("file\\s*\\(", lits "file" ++ [wsStar] ++ lits "("),
    ("input\\s*\\(", lits "input" ++ [wsStar] ++ lits "("),
    ("raw_input\\s*\\(", lits "raw_input" ++ [wsStar] ++ lits "(")]

/-- `validate_python_code(code)` (the `file_patterns` loop only logs and is
omitted). -/
def validate_python_code (code : String) : Except SecurityErr Unit :=
  if (pyStrip code.data).isEmpty then .ok ()
  else
    match (DANGEROUS_CODE_PATTERNS.find? (fun p => research p.2 (pyLower code.data))).map (·.1) with
    | some pat =>
        .error ⟨"Python code contains dangerous pattern: " ++ pat, "dangerous_code", some code⟩
    | none => .ok ()

/-! ### `SecurityValidator.validate_shell_command` -/

/-- Split on a character, keeping empty pieces (Python `str.split(sep)`). -/
def splitOnChar (sep : Char) : List Char → List (List Char)
  | [] => [[]]
  | c :: s =>
      let r := splitOnChar sep s
      if c == sep then [] :: r
      else
        match r with
        | [] => [[c]]
        | t :: ts => (c :: t) :: ts

/-- `tokens[0].split('/')[-1]`: the command name without its path. -/
def baseCommandOf (t : List Char) : String :=
  String.mk ((splitOnChar '/' t).getLastD [])

/-- The `curl`/`wget` branch of `_validate_specific_command`: validate each
argument that starts with `http` as a network request. -/
def validateUrlArgs (allowedDomains : List String) (blockedPorts : List Int) :
    List String → Except SecurityErr Unit
  | [] => .ok ()
  | a :: as =>
      if a.startsWith "http" then
        match validate_network_request allowedDomains blockedPorts a with
        | .error e => .error e
        | .ok _ => validateUrlArgs allowedDomains blockedPorts as
      else validateUrlArgs allowedDomains blockedPorts as

/-- One `dangerous_flags` iteration of the `python` branch. -/
def checkPythonFlag (flag : String) (args : List String) : Except SecurityErr Unit :=
  if args.contains flag then
    if flag = "-c" ∨ flag = "--command" then
      match args.get? (args.indexOf flag + 1) with
      | some code => validate_python_code code
      | none => .ok ()
    else .ok ()
  else .ok ()

/-- `_validate_specific_command(command, args)`. -/
def validate_specific_command (allowedDomains : List String) (blockedPorts : List Int)
    (command : String) (args : List String) : Except SecurityErr Unit :=
  if command = "git" then
    match args with
    | [] => .ok ()
    | a0 :: _ =>
        if (a0 = "config" ∨ a0 = "remote") ∧ args.contains "--global" then
          .error ⟨"Global git configuration changes not allowed",
                  "unauthorized_git_operation", none⟩
        else .ok ()
  else if command = "curl" ∨ command = "wget" then
    validateUrlArgs allowedDomains blockedPorts args
  else if command = "python" ∨ command = "python3" then
    match checkPythonFlag "-c" args with
    | .error e => .error e
    | .ok _ =>
        match checkPythonFlag "--command" args with
        | .error e => .error e
        | .ok _ => .ok ()
  else .ok ()

/-- `validate_shell_command(command)`, parameterised by the network config
used by the `curl`/`wget` branch. -/
def validate_shell_command (allowedDomains : List String) (blockedPorts : List Int)
    (command : String) : Except SecurityErr Unit :=
  if (pyStrip command.data).isEmpty then
    .error ⟨"Empty command not allowed", "empty_command", none⟩
  else
    match findForbidden command.data with
    | some pat =>
        .error ⟨"Command contains forbidden pattern: " ++ pat, "forbidden_pattern", some command⟩
    | none =>
        match shlexSplit command.data with
        | .error e => .error ⟨"Failed to parse command: " ++ e, "parse_error", some command⟩
        | .ok [] => .error ⟨"Invalid command structure", "invalid_command", some command⟩
        | .ok (t :: rest) =>
            let base := baseCommandOf t
            if ALLOWED_COMMANDS.contains base then
              validate_specific_command allowedDomains blockedPorts base (rest.map String.mk)
            else
              .error ⟨"Command is not in allowed list", "unauthorized_command", some command⟩

/-! ### `SecurityValidator.validate_file_path` -/

/-- `SecurityValidator.ALLOWED_BASE_PATHS`. -/
def ALLOWED_BASE_PATHS : List String :=
  ["/app", "/tmp", "/home/manus", "/var/tmp/manus"]

/-- `Path(p).resolve()` under the assumption that no symlinks are involved:
make the path absolute against `cwd`, then normalise `.`, `..` and empty
components. -/
def resolvePath (cwd : List Char) (p : List Char) : List Char :=
  let full := match p with
    | '/' :: _ => p
    | _ => cwd ++ '/' :: p
  let stack := (splitOnChar '/' full).foldl
    (fun st comp =>
      if comp = [] ∨ comp = ['.'] then st
      else if comp = ['.', '.'] then st.dropLast
      else st ++ [comp]) []
  if stack = [] then ['/'] else stack.foldl (fun acc c => acc ++ '/' :: c) []

/-- Leading-prefix test on character lists (Python `str.startswith`). -/
def startsWithList : List Char → List Char → Bool
  | [], _ => true
  | _ :: _, [] => false
  | p :: ps, c :: cs => p == c && startsWithList ps cs

/-- The `sensitive_patterns` of `validate_file_path` (all literal regexes). -/
def SENSITIVE_PATTERNS : List (String × List RItem) :=
  [ ("/etc/passwd", lits "/etc/passwd"),
    ("/etc/shadow", lits "/etc/shadow"),
    ("/root/", lits "/root/"),
    ("\\.ssh/", lits ".ssh/"),
    ("\\.env", lits ".env"),
    ("\\.key", lits ".key"),
    ("id_rsa", lits "id_rsa"),
    ("id_dsa", lits "id_dsa"),
    ("\\.pem", lits ".pem")]

def sensitiveMatch (pathStr : List Char) : Bool :=
  SENSITIVE_PATTERNS.any (fun p => research p.2 (pyLower pathStr))

/-- `validate_file_path(path, operation)`; `cwd` is the process working
directory `Path.resolve` resolves relative paths against.  Returns the
normalised path string on success. -/
def validate_file_path (cwd : List Char) (path : String) (operation : String) :
    Except SecurityErr String :=
  if path = "" then
    .error ⟨"Empty path not allowed", "empty_path", none⟩
  else
    let pathStr := resolvePath cwd path.data
    if ¬ ALLOWED_BASE_PATHS.any (fun b => startsWithList (resolvePath cwd b.data) pathStr) then
      .error ⟨"Path is outside allowed directories", "path_traversal",
              some (operation ++ " " ++ path)⟩
    else if sensitiveMatch pathStr then
      .error ⟨"Access to sensitive file is not allowed", "sensitive_file_access",
              some (operation ++ " " ++ path)⟩
    else .ok (String.mk pathStr)

/-! ### The state machine (`manus/core/state.py`)

`datetime.utcnow()` and `uuid4()` are effectful defaults; they appear below
as explicit `now` / fresh-id arguments. -/

/-- `TaskStatus`. -/
inductive TaskStatus where
  | pending
  | in_progress
  | completed
  | failed
  | cancelled
deriving DecidableEq, Repr

def TaskStatus.toStr : TaskStatus → String
  | .pending => "pending"
  | .in_progress => "in_progress"
  | .completed => "completed"
  | .failed => "failed"
  | .cancelled => "cancelled"

def TaskStatus.ofStr? : String → Option TaskStatus
  | "pending" => some .pending
  | "in_progress" => some .in_progress
  | "completed" => some .completed
  | "failed" => some .failed
  | "cancelled" => some .cancelled
  | _ => none

/-- The terminal statuses of the specification. -/
def TaskStatus.isTerminal : TaskStatus → Bool
  | .completed => true
  | .failed => true
  | .cancelled => true
  | _ => false

/-- `ToolCall`. -/
structure ToolCall where
  id : String
  tool_name : String
  arguments : List (String × Json)
  timestamp : String
  result : Option String
  error : Option String
  duration_ms : Option Int

/-- `Message`. -/
structure Message where
  id : String
  role : String
  content : String
  timestamp : String
  tool_calls : List ToolCall
  metadata : List (String × Json)

/-- `TaskContext`. -/
structure TaskContext where
  task_id : String
  description : String
  status : TaskStatus
  created_at : String
  updated_at : String
  completed_at : Option String
  initial_prompt : String
  current_plan : List String
  completed_steps : List String
  current_step : Option String
  iteration_count : Int
  max_iterations : Int
  success_rate : ℚ
  final_result : Option String
  artifacts : List (String × Json)
  error_history : List String

/-- A fresh `TaskContext(description=..., initial_prompt=...)` with the
declared field defaults. -/
def TaskContext.new (taskId description initialPrompt now : String) : TaskContext :=
  { task_id := taskId, description := description, status := .pending,
    created_at := now, updated_at := now, completed_at := none,
    initial_prompt := initialPrompt, current_plan := [], completed_steps := [],
    current_step := none, iteration_count := 0, max_iterations := 50,
    success_rate := 0, final_result := none, artifacts := [], error_history := [] }

/-- `TaskContext.update_status`. -/
def TaskContext.update_status (t : TaskContext) (st : TaskStatus) (now : String) :
    TaskContext :=
  { t with status := st, updated_at := now,
           completed_at := if st = .completed then some now else t.completed_at }

/-- `TaskContext.add_error`. -/
def TaskContext.add_error (t : TaskContext) (error now : String) : TaskContext :=
  { t with error_history := t.error_history ++ [now ++ ": " ++ error],
           updated_at := now }

/-- `TaskContext.calculate_success_rate`: the updated context and the
returned value.  The field is only written on the final assignment line;
the two early `return 0.0` paths leave it unchanged. -/
def TaskContext.calculate_success_rate (t : TaskContext) : TaskContext × ℚ :=
  if t.iteration_count = 0 then (t, 0)
  else
    let successful : ℚ := t.completed_steps.length
    let failed : ℚ := t.error_history.length
    if t.completed_steps.length + t.error_history.length = 0 then (t, 0)
    else
      let rate := successful / (successful + failed)
      ({ t with success_rate := rate }, rate)

/-- `AgentState`. -/
structure AgentState where
  session_id : String
  agent_name : String
  agent_version : String
  created_at : String
  last_activity : String
  messages : List Message
  current_task : Option TaskContext
  task_history : List TaskContext
  working_directory : String
  environment_variables : List (String × String)
  global_context : List (String × Json)
  total_iterations : Int
  total_tool_calls : Int
  total_errors : Int
  average_response_time_ms : ℚ

/-- Association-list lookup (Python dict access by key). -/
def alookup {α : Type} : List (String × α) → String → Option α
  | [], _ => none
  | (k', v) :: rest, k => if k' = k then some v else alookup rest k

/-- Python `dict.update`: existing keys keep their position and take the new
value; new keys are appended in the update's order. -/
def dictUpdate (old new : List (String × Json)) : List (String × Json) :=
  old.map (fun p => (p.1, (alookup new p.1).getD p.2)) ++
    new.filter (fun p => (alookup old p.1).isNone)

/-- `AgentState.update_activity`. -/
def AgentState.update_activity (s : AgentState) (now : String) : AgentState :=
  { s with last_activity := now }

/-- `AgentState.start_new_task`: returns the updated state and the returned
task id (`newId` stands for the `uuid4()` default). -/
def AgentState.start_new_task (s : AgentState) (description initialPrompt : String)
    (newId now : String) : AgentState × String :=
  let s1 := match s.current_task with
    | some t => { s with task_history := s.task_history ++ [t] }
    | none => s
  let newTask := TaskContext.new newId description initialPrompt now
  ({ s1 with current_task := some newTask, last_activity := now }, newId)

/-- A fresh `Message` with the declared defaults. -/
def Message.new (msgId role content now : String) (toolCalls : List ToolCall)
    (metadata : List (String × Json)) : Message :=
  { id := msgId, role := role, content := content, timestamp := now,
    tool_calls := toolCalls, metadata := metadata }

/-- `AgentState.add_message` (`tool_calls or []` / `metadata or {}` are the
lists passed here). -/
def AgentState.add_message (s : AgentState) (role content : String)
    (toolCalls : List ToolCall) (metadata : List (String × Json))
    (msgId now : String) : AgentState × String :=
  ({ s with messages := s.messages ++ [Message.new msgId role content now toolCalls metadata],
            last_activity := now }, msgId)

/-- `AgentState.add_tool_call`: attach to the last assistant message, else
open a new assistant message; bump the counters. -/
def AgentState.add_tool_call (s : AgentState) (toolName : String)
    (arguments : List (String × Json)) (result error : Option String)
    (durationMs : Option Int) (tcId msgId now : String) : AgentState × String :=
  let tc : ToolCall := ⟨tcId, toolName, arguments, now, result, error, durationMs⟩
  let s1 :=
    match s.messages.getLast? with
    | some m =>
        if m.role = "assistant" then
          { s with messages := s.messages.dropLast ++
              [{ m with tool_calls := m.tool_calls ++ [tc] }] }
        else (s.add_message "assistant" "" [tc] [] msgId now).1
    | none => (s.add_message "assistant" "" [tc] [] msgId now).1
  let s2 := { s1 with total_tool_calls := s1.total_tool_calls + 1,
                      total_errors := s1.total_errors +
                        (if error.getD "" ≠ "" then 1 else 0) }
  ({ s2 with last_activity := now }, tcId)

/-- `AgentState.update_task_progress`.  Python's `if plan:` / `if
current_step:` / `if completed_step:` treat `None`, `[]` and `""` alike as
false. -/
def AgentState.update_task_progress (s : AgentState) (plan : Option (List String))
    (currentStep completedStep : Option String) (now : String) : AgentState :=
  match s.current_task with
  | none => s
  | some t =>
      let t1 := match plan with
        | some p => if p ≠ [] then { t with current_plan := p } else t
        | none => t
      let t2 := match currentStep with
        | some cs => if cs ≠ "" then { t1 with current_step := some cs } else t1
        | none => t1
      let t3 := match completedStep with
        | some cs => if cs ≠ "" then { t2 with completed_steps := t2.completed_steps ++ [cs] } else t2
        | none => t2
      let t4 := { t3 with iteration_count := t3.iteration_count + 1, updated_at := now }
      { s with current_task := some t4, total_iterations := s.total_iterations + 1,
               last_activity := now }

/-- `AgentState.complete_task`; `artifacts` is the (possibly empty) dict
argument. -/
def AgentState.complete_task (s : AgentState) (result : String)
    (artifacts : List (String × Json)) (now : String) : AgentState :=
  match s.current_task with
  | none => s
  | some t =>
      let t1 := t.update_status .completed now
      let t2 := { t1 with final_result := some result }
      let t3 := match artifacts with
        | [] => t2
        | _ :: _ => { t2 with artifacts := dictUpdate t2.artifacts artifacts }
      let t4 := t3.calculate_success_rate.1
      { s with current_task := some t4, last_activity := now }

/-- `AgentState.fail_task`. -/
def AgentState.fail_task (s : AgentState) (error : String) (now : String) : AgentState :=
  match s.current_task with
  | none => s
  | some t =>
      let t1 := t.update_status .failed now
      let t2 := t1.add_error error now
      { s with current_task := some t2, total_errors := s.total_errors + 1,
               last_activity := now }

/-! ### Serialization (`to_json` / `from_json`)

pydantic's `.json()` emits every field in declaration order; `parse_raw`
validates field by field, looking fields up by name.  The JSON text and its
parsed tree are identified (`Json`); datetimes travel as their ISO strings.
Absent-field defaults are not modelled (they are fresh uuid/now factories);
`from_json` requires each field to be present, as every document produced
by `to_json` is. -/

/-- `ValidationError(message, field_name, validation_rule)`. -/
structure ValidationErr where
  message : String
  fieldName : Option String
  validationRule : Option String
deriving DecidableEq, Repr

/-- Error-propagating bind for the parsers. -/
def vbind {α β : Type} : Except String α → (α → Except String β) → Except String β
  | .error e, _ => .error e
  | .ok a, f => f a

@[simp] theorem vbind_ok {α β : Type} (a : α) (f : α → Except String β) :
    vbind (.ok a) f = f a := rfl

@[simp] theorem vbind_error {α β : Type} (e : String) (f : α → Except String β) :
    vbind (.error e) f = .error e := rfl

def getStr : Option Json → Except String String
  | some (.str s) => .ok s
  | _ => .error "expected string"

def getOptStr : Option Json → Except String (Option String)
  | some .null => .ok none
  | some (.str s) => .ok (some s)
  | _ => .error "expected string or null"

def getInt : Option Json → Except String Int
  | some (.int n) => .ok n
  | _ => .error "expected integer"

def getOptInt : Option Json → Except String (Option Int)
  | some .null => .ok none
  | some (.int n) => .ok (some n)
  | _ => .error "expected integer or null"

/-- Float fields: pydantic accepts JSON floats and ints. -/
def getRat : Option Json → Except String ℚ
  | some (.num q) => .ok q
  | some (.int n) => .ok (n : ℚ)
  | _ => .error "expected number"

def getObj : Option Json → Except String (List (String × Json))
  | some (.obj fs) => .ok fs
  | _ => .error "expected object"

def getArr : Option Json → Except String (List Json)
  | some (.arr js) => .ok js
  | _ => .error "expected array"

def getStatus : Option Json → Except String TaskStatus
  | some (.str s) =>
      match TaskStatus.ofStr? s with
      | some st => .ok st
      | none => .error "invalid task status"
  | _ => .error "expected status string"

/-- Parse every element of a JSON list. -/
def parseList {α : Type} (f : Json → Except String α) : List Json → Except String (List α)
  | [] => .ok []
  | j :: js => vbind (f j) fun a => vbind (parseList f js) fun as => .ok (a :: as)

def strElem : Json → Except String String
  | .str s => .ok s
  | _ => .error "expected string"

def getStrList (o : Option Json) : Except String (List String) :=
  vbind (getArr o) (parseList strElem)

/-- Parse a `Dict[str, str]` object. -/
def parseStrEntries : List (String × Json) → Except String (List (String × String))
  | [] => .ok []
  | (k, v) :: rest =>
      vbind (strElem v) fun s =>
      vbind (parseStrEntries rest) fun tail => .ok ((k, s) :: tail)

def getStrDict (o : Option Json) : Except String (List (String × String)) :=
  vbind (getObj o) parseStrEntries

def optStrJson : Option String → Json
  | none => .null
  | some s => .str s

def optIntJson : Option Int → Json
  | none => .null
  | some n => .int n

def ToolCall.toJson (t : ToolCall) : Json :=
  .obj [("id", .str t.id),
        ("tool_name", .str t.tool_name),
        ("arguments", .obj t.arguments),
        ("timestamp", .str t.timestamp),
        ("result", optStrJson t.result),
        ("error", optStrJson t.error),
        ("duration_ms", optIntJson t.duration_ms)]

def ToolCall.fromJson (j : Json) : Except String ToolCall :=
  match j with
  | .obj fs =>
      vbind (getStr (alookup fs "id")) fun id =>
      vbind (getStr (alookup fs "tool_name")) fun toolName =>
      vbind (getObj (alookup fs "arguments")) fun args =>
      vbind (getStr (alookup fs "timestamp")) fun ts =>
      vbind (getOptStr (alookup fs "result")) fun result =>
      vbind (getOptStr (alookup fs "error")) fun error =>
      vbind (getOptInt (alookup fs "duration_ms")) fun dur =>
      .ok ⟨id, toolName, args, ts, result, error, dur⟩
  | _ => .error "expected tool call object"

def Message.toJson (m : Message) : Json :=
  .obj [("id", .str m.id),
        ("role", .str m.role),
        ("content", .str m.content),
        ("timestamp", .str m.timestamp),
        ("tool_calls", .arr (m.tool_calls.map ToolCall.toJson)),
        ("metadata", .obj m.metadata)]

def Message.fromJson (j : Json) : Except String Message :=
  match j with
  | .obj fs =>
      vbind (getStr (alookup fs "id")) fun id =>
      vbind (getStr (alookup fs "role")) fun role =>
      vbind (getStr (alookup fs "content")) fun content =>
      vbind (getStr (alookup fs "timestamp")) fun ts =>
      vbind (getArr (alookup fs "tool_calls")) fun tcjs =>
      vbind (parseList ToolCall.fromJson tcjs) fun tcs =>
      vbind (getObj (alookup fs "metadata")) fun md =>
      .ok ⟨id, role, content, ts, tcs, md⟩
  | _ => .error "expected message object"

def TaskContext.toJson (t : TaskContext) : Json :=
  .obj [("task_id", .str t.task_id),
        ("description", .str t.description),
        ("status", .str t.status.toStr),
        ("created_at", .str t.created_at),
        ("updated_at", .str t.updated_at),
        ("completed_at", optStrJson t.completed_at),
        ("initial_prompt", .str t.initial_prompt),
        ("current_plan", .arr (t.current_plan.map Json.str)),
        ("completed_steps", .arr (t.completed_steps.map Json.str)),
        ("current_step", optStrJson t.current_step),
        ("iteration_count", .int t.iteration_count),
        ("max_iterations", .int t.max_iterations),
        ("success_rate", .num t.success_rate),
        ("final_result", optStrJson t.final_result),
        ("artifacts", .obj t.artifacts),
        ("error_history", .arr (t.error_history.map Json.str))]

def TaskContext.fromJson (j : Json) : Except String TaskContext :=
  match j with
  | .obj fs =>
      vbind (getStr (alookup fs "task_id")) fun taskId =>
      vbind (getStr (alookup fs "description")) fun description =>
      vbind (getStatus (alookup fs "status")) fun status =>
      vbind (getStr (alookup fs "created_at")) fun createdAt =>
      vbind (getStr (alookup fs "updated_at")) fun updatedAt =>
      vbind (getOptStr (alookup fs "completed_at")) fun completedAt =>
      vbind (getStr (alookup fs "initial_prompt")) fun initialPrompt =>
      vbind (getStrList (alookup fs "current_plan")) fun currentPlan =>
      vbind (getStrList (alookup fs "completed_steps")) fun completedSteps =>
      vbind (getOptStr (alookup fs "current_step")) fun currentStep =>
      vbind (getInt (alookup fs "iteration_count")) fun iterationCount =>
      vbind (getInt (alookup fs "max_iterations")) fun maxIterations =>
      vbind (getRat (alookup fs "success_rate")) fun successRate =>
      vbind (getOptStr (alookup fs "final_result")) fun finalResult =>
      vbind (getObj (alookup fs "artifacts")) fun artifacts =>
      vbind (getStrList (alookup fs "error_history")) fun errorHistory =>
      .ok ⟨taskId, description, status, createdAt, updatedAt, completedAt,
           initialPrompt, currentPlan, completedSteps, currentStep,
           iterationCount, maxIterations, successRate, finalResult,
           artifacts, errorHistory⟩
  | _ => .error "expected task object"

def optTaskJson : Option TaskContext → Json
  | none => .null
  | some t => t.toJson

def getOptTask : Option Json → Except String (Option TaskContext)
  | some .null => .ok none
  | some (.obj fs) => vbind (TaskContext.fromJson (.obj fs)) fun t => .ok (some t)
  | _ => .error "expected task object or null"

def AgentState.toJson (s : AgentState) : Json :=
  .obj [("session_id", .str s.session_id),
        ("agent_name", .str s.agent_name),
        ("agent_version", .str s.agent_version),
        ("created_at", .str s.created_at),
        ("last_activity", .str s.last_activity),
        ("messages", .arr (s.messages.map Message.toJson)),
        ("current_task", optTaskJson s.current_task),
        ("task_history", .arr (s.task_history.map TaskContext.toJson)),
        ("working_directory", .str s.working_directory),
        ("environment_variables", .obj (s.environment_variables.map (fun p => (p.1, .str p.2)))),
        ("global_context", .obj s.global_context),
        ("total_iterations", .int s.total_iterations),
        ("total_tool_calls", .int s.total_tool_calls),
        ("total_errors", .int s.total_errors),
        ("average_response_time_ms", .num s.average_response_time_ms)]

def AgentState.fromJson (j : Json) : Except String AgentState :=
  match j with
  | .obj fs =>
      vbind (getStr (alookup fs "session_id")) fun sessionId =>
      vbind (getStr (alookup fs "agent_name")) fun agentName =>
      vbind (getStr (alookup fs "agent_version")) fun agentVersion =>
      vbind (getStr (alookup fs "created_at")) fun createdAt =>
      vbind (getStr (alookup fs "last_activity")) fun lastActivity =>
      vbind (getArr (alookup fs "messages")) fun msgJs =>
      vbind (parseList Message.fromJson msgJs) fun messages =>
      vbind (getOptTask (alookup fs "current_task")) fun currentTask =>
      vbind (getArr (alookup fs "task_history")) fun histJs =>
      vbind (parseList TaskContext.fromJson histJs) fun taskHistory =>
      vbind (getStr (alookup fs "working_directory")) fun workingDirectory =>
      vbind (getStrDict (alookup fs "environment_variables")) fun envVars =>
      vbind (getObj (alookup fs "global_context")) fun globalContext =>
      vbind (getInt (alookup fs "total_iterations")) fun totalIterations =>
      vbind (getInt (alookup fs "total_tool_calls")) fun totalToolCalls =>
      vbind (getInt (alookup fs "total_errors")) fun totalErrors =>
      vbind (getRat (alookup fs "average_response_time_ms")) fun avgMs =>
      .ok ⟨sessionId, agentName, agentVersion, createdAt, lastActivity,
           messages, currentTask, taskHistory, workingDirectory, envVars,
           globalContext, totalIterations, totalToolCalls, totalErrors, avgMs⟩
  | _ => .error "expected agent state object"

/-- `AgentState.to_json`. -/
def AgentState.to_json (s : AgentState) : Json := s.toJson

/-- `AgentState.from_json`: every parse failure becomes the one
`ValidationError` the `except` clause raises. -/
def AgentState.from_json (j : Json) : Except ValidationErr AgentState :=
  match AgentState.fromJson j with
  | .ok s => .ok s
  | .error e =>
      .error ⟨"Failed to parse agent state from JSON: " ++ e,
              some "json_data", some "valid_json_format"⟩

/-! ### `SecurityValidator.validate_tool_call` -/

/-- The security-relevant part of `SecurityConfig`. -/
structure SecurityConfig where
  allowed_domains : List String
  blocked_ports : List Int
  max_file_size_mb : Int

/-- Outcome of running a Python validator: normal return, a raised
`SecurityError`, or any other raised exception. -/
inductive VOutcome where
  | ok : VOutcome
  | sec (e : SecurityErr) : VOutcome
  | exn (msg : String) : VOutcome
deriving Repr

def vthen : VOutcome → (Unit → VOutcome) → VOutcome
  | .ok, f => f ()
  | r, _ => r

def liftSec {α : Type} : Except SecurityErr α → VOutcome
  | .ok _ => .ok
  | .error e => .sec e

/-- `_is_safe_tool_name`: `^[a-z][a-z0-9_]*$` plus a safe namespace. -/
def SAFE_TOOL_PREFIXES : List String :=
  ["file_", "shell_", "browser_", "search_", "info_",
   "code_", "media_", "message_", "debug_", "help_"]

def isSafeToolName (n : String) : Bool :=
  (match n.data with
   | [] => false
   | c :: cs =>
      ('a' ≤ c && c ≤ 'z') &&
        cs.all (fun d => ('a' ≤ d && d ≤ 'z') || d.isDigit || d == '_')) &&
  SAFE_TOOL_PREFIXES.any (fun p => startsWithList p.data n.data)

/-- `_validate_shell_arguments`.  A non-string `command` crashes on
`.strip()`; a non-string `working_directory` crashes inside `Path`. -/
def validate_shell_arguments (cfg : SecurityConfig) (cwd : List Char)
    (args : List (String × Json)) : VOutcome :=
  vthen
    (match alookup args "command" with
     | some (.str c) => liftSec (validate_shell_command cfg.allowed_domains cfg.blocked_ports c)
     | some _ => .exn "AttributeError"
     | none => .ok)
    (fun _ =>
      match alookup args "working_directory" with
      | some (.str p) => liftSec (validate_file_path cwd p "access")
      | some _ => .exn "TypeError"
      | none => .ok)

/-- `_validate_file_arguments`. -/
def validate_file_arguments (cfg : SecurityConfig) (cwd : List Char)
    (args : List (String × Json)) : VOutcome :=
  vthen
    (match alookup args "path" with
     | some (.str p) => liftSec (validate_file_path cwd p "access")
     | some _ => .exn "TypeError"
     | none => .ok) fun _ =>
  vthen
    (match alookup args "file_path" with
     | some (.str p) => liftSec (validate_file_path cwd p "access")
     | some _ => .exn "TypeError"
     | none => .ok) fun _ =>
  match alookup args "content" with
  | some (.str c) =>
      if (c.data.length : Int) > cfg.max_file_size_mb * 1024 * 1024 then
        .sec ⟨"File content exceeds maximum size limit", "oversized_content", none⟩
      else .ok
  | _ => .ok

/-- A non-string URL raises inside `validate_network_request`'s `try`, and
its catch-all turns that into the `url_validation_error` `SecurityError`. -/
def validate_url_argument (cfg : SecurityConfig) : Option Json → VOutcome
  | some (.str u) => liftSec (validate_network_request cfg.allowed_domains cfg.blocked_ports u)
  | some _ => .sec ⟨"Failed to validate URL", "url_validation_error", none⟩
  | none => .ok

/-- `_validate_browser_arguments`. -/
def validate_browser_arguments (cfg : SecurityConfig) (args : List (String × Json)) : VOutcome :=
  vthen (validate_url_argument cfg (alookup args "url")) fun _ =>
  match alookup args "xpath" with
  | some (.str x) =>
      if x.data.length > 500 then .sec ⟨"Invalid XPath expression", "invalid_xpath", none⟩
      else .ok
  | some _ => .sec ⟨"Invalid XPath expression", "invalid_xpath", none⟩
  | none => .ok

/-- `_validate_network_arguments`. -/
def validate_network_arguments (cfg : SecurityConfig) (args : List (String × Json)) : VOutcome :=
  vthen (validate_url_argument cfg (alookup args "url")) fun _ =>
  match alookup args "domain" with
  | some (.str d) =>
      if cfg.allowed_domains.contains (String.mk (pyLower d.data)) then .ok
      else .sec ⟨"Domain is not allowed", "unauthorized_domain", none⟩
  | some _ => .exn "AttributeError"
  | none => .ok

/-- `_validate_generic_arguments` (the injection patterns only log). -/
def validate_generic_arguments : List (String × Json) → VOutcome
  | [] => .ok
  | (_, .str v) :: rest =>
      if v.data.length > 10000 then
        .sec ⟨"Argument exceeds maximum length", "oversized_argument", none⟩
      else validate_generic_arguments rest
  | _ :: rest => validate_generic_arguments rest

/-- `SecurityValidator.validate_tool_call(tool_name, arguments)`. -/
def validate_tool_call (cfg : SecurityConfig) (cwd : List Char) (toolName : String)
    (args : List (String × Json)) : VOutcome :=
  if ¬ isSafeToolName toolName then
    .sec ⟨"Tool is not allowed", "unauthorized_tool", some toolName⟩
  else
    vthen
      (if startsWithList "shell_".data toolName.data then validate_shell_arguments cfg cwd args
       else if startsWithList "file_".data toolName.data then validate_file_arguments cfg cwd args
       else if startsWithList "browser_".data toolName.data then validate_browser_arguments cfg args
       else if startsWithList "network_".data toolName.data then validate_network_arguments cfg args
       else .ok)
      (fun _ => validate_generic_arguments args)

/-! ### `AgentLoop._execute_actions` -/

/-- A tool call proposed by the LLM response (`tool_call["id"|"name"|"input"]`). -/
structure ToolCallSpec where
  id : String
  name : String
  input : List (String × Json)

/-- One entry of the `results` list built by `_execute_actions`. -/
structure ActionResult where
  tool_call_id : String
  success : Bool
  result : Option String
  error : Option String
  duration_ms : Option Int

/-- Processing of a single proposed tool call inside the `for` loop:
validation, dispatch via the tool-registry oracle `exec`, and recording on
the state.  `tcId`/`msgId` stand for the fresh uuids `add_tool_call` may
draw, `now` for the wall clock. -/
def execStep (cfg : SecurityConfig) (cwd : List Char)
    (exec : ToolCallSpec → Except String (String × Int))
    (c : ToolCallSpec) (s : AgentState) (tcId msgId now : String) :
    AgentState × ActionResult :=
  match validate_tool_call cfg cwd c.name c.input with
  | .sec e =>
      let errMsg := "Security violation in tool " ++ c.name ++ ": " ++ e.message
      ((s.add_tool_call c.name c.input none (some errMsg) none tcId msgId now).1,
       ⟨c.id, false, none, some errMsg, none⟩)
  | .exn m =>
      let errMsg := "Tool execution failed: " ++ m
      ((s.add_tool_call c.name c.input none (some errMsg) none tcId msgId now).1,
       ⟨c.id, false, none, some errMsg, none⟩)
  | .ok =>
      match exec c with
      | .ok (res, dur) =>
          ((s.add_tool_call c.name c.input (some res) none (some dur) tcId msgId now).1,
           ⟨c.id, true, some res, none, some dur⟩)
      | .error m =>
          let errMsg := "Tool execution failed: " ++ m
          ((s.add_tool_call c.name c.input none (some errMsg) none tcId msgId now).1,
           ⟨c.id, false, none, some errMsg, none⟩)

/-- `_execute_actions(llm_response, state)`: the whole `for` loop.  `ids k`
supplies the fresh ids for the `k`-th call. -/
def execute_actions (cfg : SecurityConfig) (cwd : List Char)
    (exec : ToolCallSpec → Except String (String × Int))
    (ids : Nat → String × String) (clock : Nat → String) :
    List ToolCallSpec → AgentState → Nat → AgentState × List ActionResult
  | [], s, _ => (s, [])
  | c :: cs, s, k =>
      let step := execStep cfg cwd exec c s (ids k).1 (ids k).2 (clock k)
      let rest := execute_actions cfg cwd exec ids clock cs step.1 (k + 1)
      (rest.1, step.2 :: rest.2)

/-! ### `AgentLoop._attempt_recovery` and its caller -/

/-- The exception classes the recovery policy distinguishes
(`LLMError`, `ToolError`, `SecurityError`, and everything else —
`TimeoutError`, `ValidationError`, generic exceptions, ...). -/
inductive AgentErr where
  | llm (message : String)
  | tool (message : String)
  | security (e : SecurityErr)
  | timeout (message : String)
  | other (message : String)

/-- `isinstance(error, (LLMError, ToolError))`. -/
def AgentErr.isTransient : AgentErr → Bool
  | .llm _ => true
  | .tool _ => true
  | _ => false

/-- `isinstance(error, SecurityError)`. -/
def AgentErr.isSecurity : AgentErr → Bool
  | .security _ => true
  | _ => false

/-- `str(error)` (`ManusError.__str__` renders the message). -/
def AgentErr.render : AgentErr → String
  | .llm m => m
  | .tool m => m
  | .security e => e.message
  | .timeout m => m
  | .other m => m

/-- `_attempt_recovery(error, state, iteration)`: the decision and the
state it leaves behind.  The transient branch's `asyncio.sleep(1)` has no
state effect. -/
def attempt_recovery (err : AgentErr) (s : AgentState) (iteration : Int)
    (msgId now : String) : Bool × AgentState :=
  if err.isTransient ∧ iteration < 3 then (true, s)
  else
    match err with
    | .security e =>
        (true, (s.add_message "system"
          ("Security error occurred: " ++ e.message ++ ". Please modify your approach.")
          [] [] msgId now).1)
    | _ => (false, s)

/-- `state.current_task.add_error(...)` guarded by `if state.current_task`. -/
def AgentState.record_task_error (s : AgentState) (msg now : String) : AgentState :=
  match s.current_task with
  | some t => { s with current_task := some (t.add_error msg now) }
  | none => s

/-- The `except` arm of `execute_task`'s iteration loop: build the error
message, record it on the task, try recovery; on failure, fail the task.
Returns `(should_continue, state)`. -/
def handle_iteration_error (err : AgentErr) (s : AgentState) (iteration : Int)
    (msgId now : String) : Bool × AgentState :=
  let errMsg := "Error in iteration " ++ toString (iteration + 1) ++ ": " ++ err.render
  let s1 := s.record_task_error errMsg now
  let r := attempt_recovery err s1 iteration msgId now
  if r.1 then (true, r.2) else (false, r.2.fail_task errMsg now)

@[simp] theorem status_round (st : TaskStatus) : TaskStatus.ofStr? st.toStr = some st := by
  cases st <;> rfl

@[simp] theorem getOptStr_optStrJson (o : Option String) : getOptStr (some (optStrJson o)) = .ok o := by
  cases o <;> rfl

@[simp] theorem getOptInt_optIntJson (o : Option Int) : getOptInt (some (optIntJson o)) = .ok o := by
  cases o <;> rfl

theorem parseList_map {α : Type} (f : Json → Except String α) (g : α → Json) (xs : List α)
    (h : ∀ x ∈ xs, f (g x) = .ok x) : parseList f (xs.map g) = .ok xs := by
  induction xs with
  | nil => rfl
  | cons x xs ih =>
      simp only [List.map_cons, parseList, h x (List.mem_cons_self x xs),
        ih (fun y hy => h y (List.mem_cons_of_mem x hy)), vbind_ok]

theorem parseStrEntries_map (xs : List (String × String)) :
    parseStrEntries (xs.map (fun p => (p.1, Json.str p.2))) = .ok xs := by
  induction xs with
  | nil => rfl
  | cons x xs ih => simp only [List.map_cons, parseStrEntries, strElem, vbind_ok, ih]

theorem toolcall_round (t : ToolCall) : ToolCall.fromJson (ToolCall.toJson t) = .ok t := by
  obtain ⟨a, b, c, d, e, f, g⟩ := t
  simp [ToolCall.fromJson, ToolCall.toJson, alookup, getStr, getObj]

theorem message_round (m : Message) : Message.fromJson (Message.toJson m) = .ok m := by
  obtain ⟨a, b, c, d, tcs, f⟩ := m
  have h : parseList ToolCall.fromJson (tcs.map ToolCall.toJson) = .ok tcs :=
    parseList_map _ _ _ (fun x _ => toolcall_round x)
  simp [Message.fromJson, Message.toJson, alookup, getStr, getObj, getArr, h]

theorem strlist_round (xs : List String) :
    getStrList (some (.arr (xs.map Json.str))) = .ok xs := by
  simp [getStrList, getArr, parseList_map strElem Json.str xs (fun x _ => rfl)]

theorem task_round (t : TaskContext) : TaskContext.fromJson (TaskContext.toJson t) = .ok t := by
  obtain ⟨a, b, st, c, d, e, f, pl, cs, g, h, i, j, k, l, eh⟩ := t
  simp [TaskContext.fromJson, TaskContext.toJson, alookup, getStr, getObj, getArr,
    getInt, getRat, getStatus, strlist_round]

theorem state_round (s : AgentState) : AgentState.fromJson (AgentState.toJson s) = .ok s := by
  obtain ⟨a, b, c, d, e, msgs, ct, th, f, ev, gc, g, h, i, j⟩ := s
  have h1 : parseList Message.fromJson (msgs.map Message.toJson) = .ok msgs :=
    parseList_map _ _ _ (fun x _ => message_round x)
  have h2 : parseList TaskContext.fromJson (th.map TaskContext.toJson) = .ok th :=
    parseList_map _ _ _ (fun x _ => task_round x)
  have h3 : getOptTask (some (optTaskJson ct)) = .ok ct := by
    cases ct with
    | none => rfl
    | some t =>
        have ht := task_round t
        rw [TaskContext.toJson] at ht
        simp [optTaskJson, getOptTask, TaskContext.toJson, ht]
  have h4 : parseStrEntries (ev.map (fun p => (p.1, Json.str p.2))) = .ok ev :=
    parseStrEntries_map ev
  simp [AgentState.fromJson, AgentState.toJson, alookup, getStr, getObj, getArr,
    getInt, getRat, getStrDict, h1, h2, h3, h4]
/-! ### Helper lemmas about the state operations -/

theorem calculate_success_rate_only_rate (t : TaskContext) :
    t.calculate_success_rate.1.status = t.status ∧
    t.calculate_success_rate.1.task_id = t.task_id := by
  unfold TaskContext.calculate_success_rate
  split
  · exact ⟨rfl, rfl⟩
  · split <;> exact ⟨rfl, rfl⟩

theorem calculate_success_rate_value (t : TaskContext) :
    t.calculate_success_rate.1.success_rate =
      (if t.iteration_count ≠ 0 ∧ t.completed_steps.length + t.error_history.length ≠ 0 then
        (t.completed_steps.length : ℚ) /
          ((t.completed_steps.length : ℚ) + (t.error_history.length : ℚ))
      else t.success_rate) := by
  unfold TaskContext.calculate_success_rate
  by_cases h0 : t.iteration_count = 0
  · simp [h0]
  · by_cases h1 : t.completed_steps.length + t.error_history.length = 0
    · simp [h0, h1]
    · simp [h0, h1]

/-! ### Concrete example values used by the counterexamples and witnesses -/

/-- A concrete `AgentState()` with its declared defaults (fresh ids and
timestamps instantiated). -/
def exState0 : AgentState :=
  { session_id := "s0", agent_name := "manus-remake", agent_version := "0.1.0",
    created_at := "t0", last_activity := "t0", messages := [], current_task := none,
    task_history := [], working_directory := "/app/data", environment_variables := [],
    global_context := [], total_iterations := 0, total_tool_calls := 0,
    total_errors := 0, average_response_time_ms := 0 }

/-- A task with one completed step recorded but `iteration_count = 0`
(constructible directly, or by deserializing a stored state). -/
def exTask8 : TaskContext :=
  { TaskContext.new "task8" "d" "p" "t0" with completed_steps := ["s1"] }

def exState8 : AgentState := { exState0 with current_task := some exTask8 }

/-- C4 counterexample: run `start_new_task`, `fail_task`, then
`complete_task`.  The task reaches the terminal status `failed` and is then
moved out of it to `completed` — the transition guard claimed by the spec
does not exist. -/
theorem C4_counterexample :
    ((((exState0.start_new_task "d" "p" "id0" "t0").1.fail_task "boom" "t1")).current_task.map
        TaskContext.status = some TaskStatus.failed) ∧
    (TaskStatus.isTerminal TaskStatus.failed = true) ∧
    (((((exState0.start_new_task "d" "p" "id0" "t0").1.fail_task "boom" "t1")).complete_task
        "done" [] "t2").current_task.map TaskContext.status = some TaskStatus.completed) := by
  refine ⟨by decide, rfl, by decide⟩

/-- C4 (amended): `update_status` has no transition guard.  `complete_task`
always moves the current task to `completed` and `fail_task` always to
`failed`, whatever the previous status (including terminal ones), and
`start_new_task` always installs a `pending` task; `in_progress` is never
assigned by any operation. -/
theorem C4_terminal_status_set_unconditionally (s : AgentState) (t : TaskContext)
    (result error : String) (artifacts : List (String × Json)) (d ip newId now : String)
    (hcur : s.current_task = some t) :
    ((s.complete_task result artifacts now).current_task.map TaskContext.status =
        some TaskStatus.completed) ∧
    ((s.fail_task error now).current_task.map TaskContext.status = some TaskStatus.failed) ∧
    ((s.start_new_task d ip newId now).1.current_task.map TaskContext.status =
        some TaskStatus.pending) := by
  refine ⟨?_, ?_, ?_⟩
  · cases artifacts <;>
      simp [AgentState.complete_task, hcur, calculate_success_rate_only_rate,
        TaskContext.update_status]
  · simp [AgentState.fail_task, hcur, TaskContext.update_status, TaskContext.add_error]
  · unfold AgentState.start_new_task
    rw [hcur]
    rfl

theorem C4_witness :
    ((exState8.complete_task "r" [] "t1").current_task.map TaskContext.status =
        some TaskStatus.completed) ∧
    ((exState8.fail_task "e" "t1").current_task.map TaskContext.status =
        some TaskStatus.failed) ∧
    ((exState8.start_new_task "d" "p" "id1" "t1").1.current_task.map TaskContext.status =
        some TaskStatus.pending) :=
  C4_terminal_status_set_unconditionally exState8 exTask8 "r" "e" [] "d" "p" "id1" "t1" rfl

/-- C6: starting a new task while one is current archives it at the end of
`task_history`, installs a fresh `pending` task carrying the returned fresh
id (distinct from the old one), and updates `last_activity`. -/
theorem C6_start_new_task_archives (s : AgentState) (t : TaskContext)
    (d ip newId now : String)
    (hcur : s.current_task = some t)
    (hst : t.status = TaskStatus.pending ∨ t.status = TaskStatus.in_progress)
    (hfresh : newId ≠ t.task_id) :
    ((s.start_new_task d ip newId now).1.task_history = s.task_history ++ [t]) ∧
    ((s.start_new_task d ip newId now).1.task_history.length = s.task_history.length + 1) ∧
    ((s.start_new_task d ip newId now).1.current_task = some (TaskContext.new newId d ip now)) ∧
    ((TaskContext.new newId d ip now).status = TaskStatus.pending) ∧
    ((TaskContext.new newId d ip now).task_id = newId) ∧
    ((s.start_new_task d ip newId now).2 = newId) ∧
    ((s.start_new_task d ip newId now).1.current_task.map TaskContext.task_id ≠
        some t.task_id) ∧
    ((s.start_new_task d ip newId now).1.last_activity = now) := by
  unfold AgentState.start_new_task
  rw [hcur]
  refine ⟨rfl, by simp, rfl, rfl, rfl, rfl, ?_, rfl⟩
  simp [TaskContext.new, hfresh]

theorem C6_witness :
    (((exState8.start_new_task "d2" "p2" "id2" "t2").1.task_history =
        exState8.task_history ++ [exTask8]) ∧
      ((exState8.start_new_task "d2" "p2" "id2" "t2").1.task_history.length =
        exState8.task_history.length + 1) ∧
      ((exState8.start_new_task "d2" "p2" "id2" "t2").1.current_task =
        some (TaskContext.new "id2" "d2" "p2" "t2")) ∧
      ((TaskContext.new "id2" "d2" "p2" "t2").status = TaskStatus.pending) ∧
      ((TaskContext.new "id2" "d2" "p2" "t2").task_id = "id2") ∧
      ((exState8.start_new_task "d2" "p2" "id2" "t2").2 = "id2") ∧
      ((exState8.start_new_task "d2" "p2" "id2" "t2").1.current_task.map TaskContext.task_id ≠
        some exTask8.task_id) ∧
      ((exState8.start_new_task "d2" "p2" "id2" "t2").1.last_activity = "t2")) :=
  C6_start_new_task_archives exState8 exTask8 "d2" "p2" "id2" "t2" rfl (Or.inl rfl)
    (by decide)

/-- C8 counterexample: with `completed_steps = ["s1"]`, `error_history = []`
and `iteration_count = 0`, the claimed recomputation would set
`success_rate = 1/(1+0) = 1`, but `complete_task` leaves it at its previous
value `0`: `calculate_success_rate` returns early without storing when
`iteration_count == 0`. -/
theorem C8_counterexample :
    ((exState8.complete_task "r" [] "t1").current_task.map TaskContext.success_rate =
        some (0 : ℚ)) ∧
    ((exTask8.completed_steps.length : ℚ) /
        ((exTask8.completed_steps.length : ℚ) + (exTask8.error_history.length : ℚ)) = 1) ∧
    ((0 : ℚ) ≠ 1) := by
  refine ⟨by decide, by norm_num [exTask8, TaskContext.new], by norm_num⟩

/-- C8 (amended): `complete_task` sets the terminal status and recomputes
`success_rate = completed/(completed+errors)` only when `iteration_count`
is nonzero and the denominator is nonzero; in the two degenerate cases the
recomputation returns 0 without storing it, leaving `success_rate`
unchanged. -/
theorem C8_complete_task_success_rate (s : AgentState) (t : TaskContext)
    (result : String) (artifacts : List (String × Json)) (now : String)
    (hcur : s.current_task = some t) :
    ((s.complete_task result artifacts now).current_task.map TaskContext.status =
        some TaskStatus.completed) ∧
    ((s.complete_task result artifacts now).current_task.map TaskContext.success_rate =
        some (if t.iteration_count ≠ 0 ∧ t.completed_steps.length + t.error_history.length ≠ 0
              then (t.completed_steps.length : ℚ) /
                     ((t.completed_steps.length : ℚ) + (t.error_history.length : ℚ))
              else t.success_rate)) := by
  constructor
  · cases artifacts <;>
      simp [AgentState.complete_task, hcur, calculate_success_rate_only_rate,
        TaskContext.update_status]
  · cases artifacts <;>
      simp [AgentState.complete_task, hcur, calculate_success_rate_value,
        TaskContext.update_status]

theorem C8_witness :
    ((exState8.complete_task "r2" [] "t3").current_task.map TaskContext.status =
        some TaskStatus.completed) ∧
    ((exState8.complete_task "r2" [] "t3").current_task.map TaskContext.success_rate =
        some (if exTask8.iteration_count ≠ 0 ∧
                  exTask8.completed_steps.length + exTask8.error_history.length ≠ 0
              then (exTask8.completed_steps.length : ℚ) /
                     ((exTask8.completed_steps.length : ℚ) + (exTask8.error_history.length : ℚ))
              else exTask8.success_rate)) :=
  C8_complete_task_success_rate exState8 exTask8 "r2" [] "t3" rfl
/-! ### Default security configuration (`SecurityConfig` field defaults) -/

def DEFAULT_ALLOWED_DOMAINS : List String :=
  ["api.anthropic.com", "googleapis.com", "github.com", "pypi.org"]

def DEFAULT_BLOCKED_PORTS : List Int := [22, 23, 135, 139, 445, 1433, 3389]

/-- C9 counterexample: `https://github.com:x/` has scheme `https` and host
`github.com` (allow-listed), and carries no port from the blocked list (its
port part does not parse as an integer) — by the claim it should return
normally, but the code raises `invalid_port`. -/
theorem C9_counterexample :
    ((urlparse "https://github.com:x/").1 = "https") ∧
    (splitFirst ':' (pyLower (urlparse "https://github.com:x/").2.data) =
        some ("github.com".data, "x".data)) ∧
    (domainAllowed DEFAULT_ALLOWED_DOMAINS "github.com".data = true) ∧
    (pyParseInt "x".data = none) ∧
    (violationOf
        (validate_network_request DEFAULT_ALLOWED_DOMAINS DEFAULT_BLOCKED_PORTS
          "https://github.com:x/") = some "invalid_port") := by
  refine ⟨rfl, by decide, by decide, rfl, by decide⟩

/-- C9 (amended): the checks run in order — scheme, then (when the netloc
has a `:`) port parse and block-list, then domain equality-or-subdomain —
and the first failing check raises with its own violation type
(`unauthorized_protocol`, `invalid_port`, `blocked_port`,
`unauthorized_domain`); the request is accepted when all pass.  In
particular `https://github.com/x` passes and `http://evil.example` fails
with `unauthorized_domain` under the default config. -/
theorem C9_network_request_checks (aD : List String) (bP : List Int) (url : String) :
    (¬ ((urlparse url).1 = "http" ∨ (urlparse url).1 = "https") →
       violationOf (validate_network_request aD bP url) = some "unauthorized_protocol") ∧
    (((urlparse url).1 = "http" ∨ (urlparse url).1 = "https") →
      ∀ d ps, splitFirst ':' (pyLower (urlparse url).2.data) = some (d, ps) →
       (pyParseInt ps = none →
          violationOf (validate_network_request aD bP url) = some "invalid_port") ∧
       (∀ port, pyParseInt ps = some port →
          (port ∈ bP →
             violationOf (validate_network_request aD bP url) = some "blocked_port") ∧
          (port ∉ bP → domainAllowed aD d = false →
             violationOf (validate_network_request aD bP url) = some "unauthorized_domain") ∧
          (port ∉ bP → domainAllowed aD d = true →
             validate_network_request aD bP url = .ok ()))) ∧
    (((urlparse url).1 = "http" ∨ (urlparse url).1 = "https") →
      splitFirst ':' (pyLower (urlparse url).2.data) = none →
       (domainAllowed aD (pyLower (urlparse url).2.data) = false →
          violationOf (validate_network_request aD bP url) = some "unauthorized_domain") ∧
       (domainAllowed aD (pyLower (urlparse url).2.data) = true →
          validate_network_request aD bP url = .ok ())) ∧
    (validate_network_request DEFAULT_ALLOWED_DOMAINS DEFAULT_BLOCKED_PORTS
        "https://github.com/x" = .ok ()) ∧
    (violationOf
        (validate_network_request DEFAULT_ALLOWED_DOMAINS DEFAULT_BLOCKED_PORTS
          "http://evil.example") = some "unauthorized_domain") := by
  refine ⟨?_, ?_, ?_, rfl, by decide⟩
  · intro h
    simp [validate_network_request, h, violationOf]
  · intro h d ps hsplit
    refine ⟨?_, ?_⟩
    · intro hport
      simp [validate_network_request, h, hsplit, hport, violationOf]
    · intro port hport
      refine ⟨?_, ?_, ?_⟩
      · intro hblock
        simp [validate_network_request, h, hsplit, hport, hblock, violationOf]
      · intro hblock hdom
        simp [validate_network_request, h, hsplit, hport, hblock, hdom, violationOf]
      · intro hblock hdom
        simp [validate_network_request, h, hsplit, hport, hblock, hdom]
  · intro h hsplit
    refine ⟨?_, ?_⟩
    · intro hdom
      simp [validate_network_request, h, hsplit, hdom, violationOf]
    · intro hdom
      simp [validate_network_request, h, hsplit, hdom]

theorem C9_witness :
    (violationOf
        (validate_network_request DEFAULT_ALLOWED_DOMAINS DEFAULT_BLOCKED_PORTS
          "ftp://github.com/x") = some "unauthorized_protocol") ∧
    (violationOf
        (validate_network_request DEFAULT_ALLOWED_DOMAINS DEFAULT_BLOCKED_PORTS
          "https://github.com:22/x") = some "blocked_port") ∧
    (validate_network_request DEFAULT_ALLOWED_DOMAINS DEFAULT_BLOCKED_PORTS
        "https://github.com:8080/x" = .ok ()) ∧
    (violationOf
        (validate_network_request DEFAULT_ALLOWED_DOMAINS DEFAULT_BLOCKED_PORTS
          "http://evil.example") = some "unauthorized_domain") := by
  refine ⟨?_, ?_, ?_, ?_⟩
  · exact (C9_network_request_checks DEFAULT_ALLOWED_DOMAINS DEFAULT_BLOCKED_PORTS
      "ftp://github.com/x").1 (by decide)
  · exact (((C9_network_request_checks DEFAULT_ALLOWED_DOMAINS DEFAULT_BLOCKED_PORTS
      "https://github.com:22/x").2.1 (Or.inr rfl) "github.com".data "22".data
      (by decide)).2 22 (by decide)).1 (by decide)
  · exact (((C9_network_request_checks DEFAULT_ALLOWED_DOMAINS DEFAULT_BLOCKED_PORTS
      "https://github.com:8080/x").2.1 (Or.inr rfl) "github.com".data "8080".data
      (by decide)).2 8080 (by decide)).2.2 (by decide) (by decide)
  · exact ((C9_network_request_checks DEFAULT_ALLOWED_DOMAINS DEFAULT_BLOCKED_PORTS
      "http://evil.example").2.2.1 (Or.inl rfl) (by decide)).1 (by decide)

/-- C10: the allowed-root check of `validate_file_path` is a plain string
prefix test on the resolved path — any path whose resolved string extends
an allowed base string is accepted (no `path_traversal`), even when it is
not inside that base directory, and absent a sensitive-pattern match the
resolved path is returned as valid. -/
theorem C10_prefix_check_not_containment (cwd : List Char) (p op : String)
    (hne : ¬ p = "")
    (hpre : ∃ b ∈ ALLOWED_BASE_PATHS,
        startsWithList (resolvePath cwd b.data) (resolvePath cwd p.data) = true)
    (hsens : sensitiveMatch (resolvePath cwd p.data) = false) :
    validate_file_path cwd p op = .ok (String.mk (resolvePath cwd p.data)) ∧
    violationOf (validate_file_path cwd p op) ≠ some "path_traversal" := by
  have hany : (ALLOWED_BASE_PATHS.any
      (fun b => startsWithList (resolvePath cwd b.data) (resolvePath cwd p.data))) = true := by
    rcases hpre with ⟨b, hb, hsw⟩
    exact List.any_eq_true.mpr ⟨b, hb, hsw⟩
  have hok : validate_file_path cwd p op = .ok (String.mk (resolvePath cwd p.data)) := by
    simp [validate_file_path, hne, hany, hsens]
  exact ⟨hok, by rw [hok]; simp [violationOf]⟩

theorem C10_witness :
    (validate_file_path "/".data "/tmp_evil/notes.txt" "access" =
        .ok (String.mk (resolvePath "/".data "/tmp_evil/notes.txt".data))) ∧
    (violationOf (validate_file_path "/".data "/tmp_evil/notes.txt" "access") ≠
        some "path_traversal") ∧
    (String.mk (resolvePath "/".data "/tmp_evil/notes.txt".data) = "/tmp_evil/notes.txt") ∧
    (startsWithList "/tmp".data "/tmp_evil/notes.txt".data = true) ∧
    (startsWithList "/tmp/".data "/tmp_evil/notes.txt".data = false) := by
  have h := C10_prefix_check_not_containment "/".data "/tmp_evil/notes.txt" "access"
    (by decide) ⟨"/tmp", by decide, by decide⟩ (by decide)
  exact ⟨h.1, h.2, by decide, by decide, by decide⟩
/-- In the abort case the recovery decision is independent of the state. -/
theorem attempt_recovery_abort (err : AgentErr) (s : AgentState) (iteration : Int)
    (msgId now : String) (hcond : ¬ (err.isTransient = true ∧ iteration < 3))
    (hsec : err.isSecurity = false) :
    attempt_recovery err s iteration msgId now = (false, s) := by
  cases err with
  | security e => simp [AgentErr.isSecurity] at hsec
  | llm m =>
      have h3 : ¬ iteration < 3 := fun hlt => hcond ⟨rfl, hlt⟩
      simp [attempt_recovery, AgentErr.isTransient, h3]
  | tool m =>
      have h3 : ¬ iteration < 3 := fun hlt => hcond ⟨rfl, hlt⟩
      simp [attempt_recovery, AgentErr.isTransient, h3]
  | timeout m => simp [attempt_recovery, AgentErr.isTransient]
  | other m => simp [attempt_recovery, AgentErr.isTransient]

/-- C7: the recovery policy, first match wins.  A transient-class error
(`LLMError`/`ToolError`) in the first three iterations (`iteration < 3`,
zero-based) continues with the state untouched (the backoff sleeps only); a
`SecurityError` continues after appending a system-role message describing
the violation; anything else — including transient errors at iteration 3
or later — is refused, and the caller then fails the task. -/
theorem C7_recovery_policy (err : AgentErr) (s : AgentState) (iteration : Int)
    (msgId now : String) :
    (err.isTransient = true → iteration < 3 →
       attempt_recovery err s iteration msgId now = (true, s)) ∧
    (∀ e, err = .security e →
       attempt_recovery err s iteration msgId now =
         (true, (s.add_message "system"
            ("Security error occurred: " ++ e.message ++ ". Please modify your approach.")
            [] [] msgId now).1) ∧
       (attempt_recovery err s iteration msgId now).2.messages =
         s.messages ++ [Message.new msgId "system"
            ("Security error occurred: " ++ e.message ++ ". Please modify your approach.")
            now [] []]) ∧
    (¬ (err.isTransient = true ∧ iteration < 3) → err.isSecurity = false →
       (attempt_recovery err s iteration msgId now = (false, s)) ∧
       (handle_iteration_error err s iteration msgId now).1 = false ∧
       (∀ t, s.current_task = some t →
          (handle_iteration_error err s iteration msgId now).2.current_task.map
              TaskContext.status = some TaskStatus.failed)) := by
  refine ⟨?_, ?_, ?_⟩
  · intro htr hit
    simp [attempt_recovery, htr, hit]
  · rintro e rfl
    constructor
    · simp [attempt_recovery, AgentErr.isTransient]
    · simp [attempt_recovery, AgentErr.isTransient, AgentState.add_message]
  · intro hcond hsec
    have hrec := attempt_recovery_abort err s iteration msgId now hcond hsec
    have hrec2 := attempt_recovery_abort err
      (s.record_task_error
        ("Error in iteration " ++ toString (iteration + 1) ++ ": " ++ err.render) now)
      iteration msgId now hcond hsec
    refine ⟨hrec, ?_, ?_⟩
    · simp [handle_iteration_error, hrec2]
    · intro t hcur
      simp only [handle_iteration_error, hrec2]
      simp [AgentState.fail_task, AgentState.record_task_error, hcur,
        TaskContext.update_status, TaskContext.add_error]

theorem C7_witness :
    (attempt_recovery (.llm "rate limited") exState0 1 "m1" "t1" = (true, exState0)) ∧
    (attempt_recovery (.security ⟨"bad", "forbidden_pattern", none⟩) exState0 7 "m1" "t1" =
       (true, (exState0.add_message "system"
          ("Security error occurred: " ++ "bad" ++ ". Please modify your approach.")
          [] [] "m1" "t1").1)) ∧
    (attempt_recovery (.llm "rate limited") exState8 5 "m1" "t1" = (false, exState8)) ∧
    ((handle_iteration_error (.llm "rate limited") exState8 5 "m1" "t1").2.current_task.map
        TaskContext.status = some TaskStatus.failed) := by
  refine ⟨?_, ?_, ?_, ?_⟩
  · exact (C7_recovery_policy (.llm "rate limited") exState0 1 "m1" "t1").1 rfl (by decide)
  · exact ((C7_recovery_policy (.security ⟨"bad", "forbidden_pattern", none⟩) exState0 7
      "m1" "t1").2.1 ⟨"bad", "forbidden_pattern", none⟩ rfl).1
  · exact ((C7_recovery_policy (.llm "rate limited") exState8 5 "m1" "t1").2.2
      (by decide) rfl).1
  · exact (((C7_recovery_policy (.llm "rate limited") exState8 5 "m1" "t1").2.2
      (by decide) rfl).2.2) exTask8 rfl
/-- C1: `validate_shell_command` follows the declared rule order — a blank
command fails with `empty_command`; a non-blank command matching any
forbidden pattern fails with `forbidden_pattern`; otherwise, after
tokenizing, a command whose base command (path stripped) is outside the
allow-list fails with `unauthorized_command`.  In particular `rm -rf /`
raises (forbidden pattern) and `ls -la` returns normally. -/
theorem C1_shell_command_rule_order (aD : List String) (bP : List Int) (cmd : String) :
    ((pyStrip cmd.data).isEmpty = true →
       validate_shell_command aD bP cmd =
         .error ⟨"Empty command not allowed", "empty_command", none⟩) ∧
    ((pyStrip cmd.data).isEmpty = false →
       (∃ p ∈ FORBIDDEN_PATTERNS, research p.2 (pyLower cmd.data) = true) →
       violationOf (validate_shell_command aD bP cmd) = some "forbidden_pattern") ∧
    ((pyStrip cmd.data).isEmpty = false → findForbidden cmd.data = none →
       ∀ t ts, shlexSplit cmd.data = .ok (t :: ts) →
       baseCommandOf t ∉ ALLOWED_COMMANDS →
       violationOf (validate_shell_command aD bP cmd) = some "unauthorized_command") ∧
    (violationOf (validate_shell_command aD bP "rm -rf /") = some "forbidden_pattern") ∧
    (validate_shell_command aD bP "ls -la" = .ok ()) := by
  refine ⟨?_, ?_, ?_, rfl, rfl⟩
  · intro hblank
    simp [validate_shell_command, hblank]
  · intro hblank hmatch
    have hfb : findForbidden cmd.data ≠ none := by
      intro hnone
      have hfind : FORBIDDEN_PATTERNS.find? (fun p => research p.2 (pyLower cmd.data)) = none := by
        cases hff : FORBIDDEN_PATTERNS.find? (fun p => research p.2 (pyLower cmd.data)) with
        | none => rfl
        | some q => simp [findForbidden, hff] at hnone
      rcases hmatch with ⟨p, hp, hres⟩
      have hnp := List.find?_eq_none.mp hfind p hp
      rw [hres] at hnp
      exact hnp rfl
    cases hf : findForbidden cmd.data with
    | none => exact absurd hf hfb
    | some pat => simp [validate_shell_command, hblank, hf, violationOf]
  · intro hblank hf t ts htok hbase
    simp [validate_shell_command, hblank, hf, htok, hbase, violationOf]

theorem C1_witness :
    (validate_shell_command DEFAULT_ALLOWED_DOMAINS DEFAULT_BLOCKED_PORTS " \t " =
       .error ⟨"Empty command not allowed", "empty_command", none⟩) ∧
    (violationOf (validate_shell_command DEFAULT_ALLOWED_DOMAINS DEFAULT_BLOCKED_PORTS
        "sudo ls") = some "forbidden_pattern") ∧
    (violationOf (validate_shell_command DEFAULT_ALLOWED_DOMAINS DEFAULT_BLOCKED_PORTS
        "evil -x") = some "unauthorized_command") ∧
    (violationOf (validate_shell_command DEFAULT_ALLOWED_DOMAINS DEFAULT_BLOCKED_PORTS
        "rm -rf /") = some "forbidden_pattern") ∧
    (validate_shell_command DEFAULT_ALLOWED_DOMAINS DEFAULT_BLOCKED_PORTS "ls -la" =
       .ok ()) := by
  refine ⟨?_, ?_, ?_, ?_, ?_⟩
  · exact (C1_shell_command_rule_order DEFAULT_ALLOWED_DOMAINS DEFAULT_BLOCKED_PORTS
      " \t ").1 (by decide)
  · exact (C1_shell_command_rule_order DEFAULT_ALLOWED_DOMAINS DEFAULT_BLOCKED_PORTS
      "sudo ls").2.1 (by decide) ⟨("sudo\\s+", lits "sudo" ++ [wsPlus]), by decide, by decide⟩
  · exact (C1_shell_command_rule_order DEFAULT_ALLOWED_DOMAINS DEFAULT_BLOCKED_PORTS
      "evil -x").2.2.1 (by decide) (by decide) ['e','v','i','l'] [['-','x']] rfl (by decide)
  · exact (C1_shell_command_rule_order DEFAULT_ALLOWED_DOMAINS DEFAULT_BLOCKED_PORTS
      "rm -rf /").2.2.2.1
  · exact (C1_shell_command_rule_order DEFAULT_ALLOWED_DOMAINS DEFAULT_BLOCKED_PORTS
      "ls -la").2.2.2.2
/-- C2: serialization round trip — deserializing the serialized form of any
state (including empty `task_history` and an absent `current_task`)
reproduces an equal value for every field, nested lists in original order;
and any input that fails to parse yields the `ValidationError` (the parser
is total: no crash). -/
theorem C2_state_round_trip :
    (∀ s : AgentState, AgentState.from_json (AgentState.to_json s) = .ok s) ∧
    (∀ j : Json, (¬ ∃ s, AgentState.from_json j = .ok s) →
       ∃ e : ValidationErr, AgentState.from_json j = .error e) := by
  constructor
  · intro s
    simp [AgentState.from_json, AgentState.to_json, state_round s]
  · intro j hne
    unfold AgentState.from_json
    cases hj : AgentState.fromJson j with
    | ok s => exact absurd ⟨s, by simp [AgentState.from_json, hj]⟩ hne
    | error e => exact ⟨_, rfl⟩

theorem C2_witness :
    (AgentState.from_json (AgentState.to_json exState8) = .ok exState8) ∧
    (∃ e : ValidationErr, AgentState.from_json Json.null = .error e) := by
  constructor
  · exact C2_state_round_trip.1 exState8
  · exact C2_state_round_trip.2 Json.null
      (by simp [AgentState.from_json, AgentState.fromJson])
/-! ### Tool-call accounting and append-only structure of `messages` -/

/-- Total number of `ToolCall` entries across all messages. -/
def countTC (msgs : List Message) : Nat :=
  (msgs.map (fun m => m.tool_calls.length)).sum

theorem countTC_append (a b : List Message) :
    countTC (a ++ b) = countTC a + countTC b := by
  simp [countTC]

/-- `add_tool_call` always records exactly one `ToolCall` and bumps
`total_tool_calls` by one, whichever branch it takes. -/
theorem add_tool_call_counts (s : AgentState) (tn : String)
    (args : List (String × Json)) (res err : Option String) (dur : Option Int)
    (tcId msgId now : String) :
    countTC (((s.add_tool_call tn args res err dur tcId msgId now).1).messages) =
      countTC s.messages + 1 ∧
    ((s.add_tool_call tn args res err dur tcId msgId now).1).total_tool_calls =
      s.total_tool_calls + 1 := by
  rcases List.eq_nil_or_concat s.messages with hnil | ⟨L, b, hLb⟩
  · constructor <;>
      simp [AgentState.add_tool_call, hnil, AgentState.add_message, Message.new, countTC]
  · rw [List.concat_eq_append] at hLb
    by_cases hrole : b.role = "assistant"
    · constructor
      · simp [AgentState.add_tool_call, hLb, List.getLast?_concat, hrole,
          List.dropLast_concat, countTC_append, countTC]
        omega
      · simp [AgentState.add_tool_call, hLb, List.getLast?_concat, hrole,
          List.dropLast_concat]
    · constructor
      · simp [AgentState.add_tool_call, hLb, List.getLast?_concat, hrole,
          AgentState.add_message, Message.new, countTC_append, countTC]
        omega
      · simp [AgentState.add_tool_call, hLb, List.getLast?_concat, hrole,
          AgentState.add_message]

/-- `new` extends `old` without touching existing entries: same or longer,
and each previously present message keeps its index and its fields, except
possibly tool calls appended to an assistant message. -/
def MsgExt (old new : List Message) : Prop :=
  old.length ≤ new.length ∧
  ∀ i m, old.get? i = some m →
    ∃ extra : List ToolCall,
      new.get? i = some { m with tool_calls := m.tool_calls ++ extra } ∧
      (extra ≠ [] → m.role = "assistant")

theorem msgExt_refl (l : List Message) : MsgExt l l :=
  ⟨le_refl _, fun i m h => ⟨[], by simpa using h, by simp⟩⟩

theorem msgExt_trans {a b c : List Message} (h1 : MsgExt a b) (h2 : MsgExt b c) :
    MsgExt a c := by
  obtain ⟨hl1, h1⟩ := h1
  obtain ⟨hl2, h2⟩ := h2
  refine ⟨le_trans hl1 hl2, ?_⟩
  intro i m hm
  obtain ⟨e1, hb, hr1⟩ := h1 i m hm
  obtain ⟨e2, hc, hr2⟩ := h2 i _ hb
  refine ⟨e1 ++ e2, ?_, ?_⟩
  · rw [hc]
    simp
  · intro hne
    by_cases he1 : e1 = []
    · subst he1
      have he2 : e2 ≠ [] := by simpa using hne
      exact hr2 he2
    · exact hr1 he1

theorem msgExt_snoc (l : List Message) (m : Message) : MsgExt l (l ++ [m]) := by
  refine ⟨by simp, ?_⟩
  intro i x hx
  obtain ⟨hi, -⟩ := List.get?_eq_some.mp hx
  refine ⟨[], ?_, by simp⟩
  rw [List.get?_append hi]
  simpa using hx

theorem msgExt_extend_last (L : List Message) (b : Message) (tc : ToolCall)
    (hrole : b.role = "assistant") :
    MsgExt (L ++ [b]) (L ++ [{ b with tool_calls := b.tool_calls ++ [tc] }]) := by
  refine ⟨by simp, ?_⟩
  intro i m hm
  by_cases hi : i < L.length
  · rw [List.get?_append hi] at hm ⊢
    exact ⟨[], by simpa using hm, by simp⟩
  · obtain ⟨hlt, -⟩ := List.get?_eq_some.mp hm
    simp only [List.length_append, List.length_singleton] at hlt
    have hieq : i = L.length := by omega
    subst hieq
    rw [List.get?_concat_length] at hm
    injection hm with hm
    subst hm
    refine ⟨[tc], ?_, fun _ => hrole⟩
    rw [List.get?_concat_length]

/-- `add_tool_call` only ever appends: either a tool call onto the last
(assistant) message, or a whole new message. -/
theorem msgExt_add_tool_call (s : AgentState) (tn : String)
    (args : List (String × Json)) (res err : Option String) (dur : Option Int)
    (tcId msgId now : String) :
    MsgExt s.messages (((s.add_tool_call tn args res err dur tcId msgId now).1).messages) := by
  rcases List.eq_nil_or_concat s.messages with hnil | ⟨L, b, hLb⟩
  · have : (((s.add_tool_call tn args res err dur tcId msgId now).1).messages) =
        s.messages ++ [Message.new msgId "assistant" "" now
          [⟨tcId, tn, args, now, res, err, dur⟩] []] := by
      simp [AgentState.add_tool_call, hnil, AgentState.add_message]
    rw [this]
    exact msgExt_snoc _ _
  · rw [List.concat_eq_append] at hLb
    by_cases hrole : b.role = "assistant"
    · have : (((s.add_tool_call tn args res err dur tcId msgId now).1).messages) =
          L ++ [{ b with tool_calls := b.tool_calls ++ [⟨tcId, tn, args, now, res, err, dur⟩] }] := by
        simp [AgentState.add_tool_call, hLb, List.getLast?_concat, hrole, List.dropLast_concat]
      rw [hLb, this]
      exact msgExt_extend_last L b ⟨tcId, tn, args, now, res, err, dur⟩ hrole
    · have : (((s.add_tool_call tn args res err dur tcId msgId now).1).messages) =
          s.messages ++ [Message.new msgId "assistant" "" now
            [⟨tcId, tn, args, now, res, err, dur⟩] []] := by
        simp [AgentState.add_tool_call, hLb, List.getLast?_concat, hrole, AgentState.add_message]
      rw [this]
      exact msgExt_snoc _ _

/-! ### The `add_message` / `add_tool_call` call sequences of claim C5 -/

/-- One call of the pair of mutation methods; `msg` carries no tool calls
(`tool_calls=None`), which is how every caller outside `add_tool_call`
invokes `add_message`. -/
inductive StateOp where
  | msg (role content : String) (metadata : List (String × Json)) (msgId now : String)
  | call (toolName : String) (args : List (String × Json)) (result error : Option String)
      (dur : Option Int) (tcId msgId now : String)

def applyOp (s : AgentState) : StateOp → AgentState
  | .msg role content md msgId now => (s.add_message role content [] md msgId now).1
  | .call tn args res err dur tcId msgId now =>
      (s.add_tool_call tn args res err dur tcId msgId now).1

def applyOps (s : AgentState) : List StateOp → AgentState
  | [] => s
  | op :: ops => applyOps (applyOp s op) ops

/-- C5 counterexample: calling `add_message` with a non-empty `tool_calls`
argument (permitted by its signature) adds a `ToolCall` to the
conversation without touching `total_tool_calls`, so the claimed equality
fails after a single call on a fresh state. -/
theorem C5_counterexample :
    (exState0.total_tool_calls = (countTC exState0.messages : Int)) ∧
    (((exState0.add_message "assistant" "hi" [⟨"tc0", "file_read", [], "t0", none, none, none⟩]
        [] "m0" "t1").1).total_tool_calls ≠
      (countTC (((exState0.add_message "assistant" "hi"
        [⟨"tc0", "file_read", [], "t0", none, none, none⟩] [] "m0" "t1").1).messages) : Int)) := by
  constructor
  · decide
  · decide

/-- C5 (amended): for every sequence of `add_message` calls that pass no
tool calls (as all callers outside `add_tool_call` do) and `add_tool_call`
calls, the messages list is append-only and order-preserving — each
previously present message keeps its index and content, gaining at most
appended tool calls on an assistant message — and, starting from a state
satisfying it, the invariant `total_tool_calls = number of ToolCalls
across all messages` is preserved. -/
theorem C5_append_only_and_counter (ops : List StateOp) (s : AgentState)
    (hinv : s.total_tool_calls = (countTC s.messages : Int)) :
    ((applyOps s ops).total_tool_calls = (countTC (applyOps s ops).messages : Int)) ∧
    MsgExt s.messages (applyOps s ops).messages := by
  induction ops generalizing s with
  | nil => exact ⟨hinv, msgExt_refl _⟩
  | cons op ops ih =>
      have hstep_inv : (applyOp s op).total_tool_calls =
          (countTC (applyOp s op).messages : Int) := by
        cases op with
        | msg role content md msgId now =>
            simp [applyOp, AgentState.add_message, countTC_append, countTC, Message.new, hinv]
        | call tn args res err dur tcId msgId now =>
            have h := add_tool_call_counts s tn args res err dur tcId msgId now
            show (s.add_tool_call tn args res err dur tcId msgId now).1.total_tool_calls =
              (countTC (s.add_tool_call tn args res err dur tcId msgId now).1.messages : Int)
            rw [h.1, h.2, hinv]
            push_cast
            ring
      have hstep_ext : MsgExt s.messages (applyOp s op).messages := by
        cases op with
        | msg role content md msgId now =>
            have : (applyOp s (.msg role content md msgId now)).messages =
                s.messages ++ [Message.new msgId role content now [] md] := rfl
            rw [this]
            exact msgExt_snoc _ _
        | call tn args res err dur tcId msgId now =>
            exact msgExt_add_tool_call s tn args res err dur tcId msgId now
      obtain ⟨h1, h2⟩ := ih (applyOp s op) hstep_inv
      exact ⟨h1, msgExt_trans hstep_ext h2⟩

theorem C5_witness :
    ((applyOps exState0 [.msg "user" "hello" [] "m1" "t1",
        .call "file_read" [] (some "ok") none (some 5) "tc1" "m2" "t2"]).total_tool_calls =
      (countTC (applyOps exState0 [.msg "user" "hello" [] "m1" "t1",
        .call "file_read" [] (some "ok") none (some 5) "tc1" "m2" "t2"]).messages : Int)) ∧
    MsgExt exState0.messages (applyOps exState0 [.msg "user" "hello" [] "m1" "t1",
        .call "file_read" [] (some "ok") none (some 5) "tc1" "m2" "t2"]).messages :=
  C5_append_only_and_counter
    [.msg "user" "hello" [] "m1" "t1",
     .call "file_read" [] (some "ok") none (some 5) "tc1" "m2" "t2"]
    exState0 (by decide)
/-- Each loop body of `_execute_actions` records exactly one `ToolCall`
(whether validation raised, dispatch raised, or the call succeeded) and
produces the result entry for that proposed call. -/
theorem execStep_counts (cfg : SecurityConfig) (cwd : List Char)
    (exec : ToolCallSpec → Except String (String × Int)) (c : ToolCallSpec)
    (s : AgentState) (tcId msgId now : String) :
    countTC ((execStep cfg cwd exec c s tcId msgId now).1.messages) =
      countTC s.messages + 1 ∧
    (execStep cfg cwd exec c s tcId msgId now).1.total_tool_calls =
      s.total_tool_calls + 1 ∧
    (execStep cfg cwd exec c s tcId msgId now).2.tool_call_id = c.id := by
  unfold execStep
  cases validate_tool_call cfg cwd c.name c.input with
  | sec e =>
      exact ⟨(add_tool_call_counts s c.name c.input none _ none tcId msgId now).1,
        (add_tool_call_counts s c.name c.input none _ none tcId msgId now).2, rfl⟩
  | exn m =>
      exact ⟨(add_tool_call_counts s c.name c.input none _ none tcId msgId now).1,
        (add_tool_call_counts s c.name c.input none _ none tcId msgId now).2, rfl⟩
  | ok =>
      cases hexec : exec c with
      | ok p =>
          obtain ⟨r, d⟩ := p
          exact ⟨(add_tool_call_counts s c.name c.input (some r) none (some d)
              tcId msgId now).1,
            (add_tool_call_counts s c.name c.input (some r) none (some d)
              tcId msgId now).2, rfl⟩
      | error m =>
          exact ⟨(add_tool_call_counts s c.name c.input none _ none tcId msgId now).1,
            (add_tool_call_counts s c.name c.input none _ none tcId msgId now).2, rfl⟩

/-- C3: an error inside a single tool call — a `SecurityError` from
validation or any failure from dispatch — never aborts the iteration: every
proposed call, at every position, is processed in order (one result entry
per call, carrying its id) and recorded on the state via `add_tool_call`
(both the tool-call count in the conversation and `total_tool_calls` grow
by exactly the number of proposed calls). -/
theorem C3_tool_errors_do_not_abort (cfg : SecurityConfig) (cwd : List Char)
    (exec : ToolCallSpec → Except String (String × Int)) (ids : Nat → String × String)
    (clock : Nat → String) (calls : List ToolCallSpec) (s : AgentState) (k : Nat) :
    ((execute_actions cfg cwd exec ids clock calls s k).2.map ActionResult.tool_call_id =
       calls.map ToolCallSpec.id) ∧
    ((execute_actions cfg cwd exec ids clock calls s k).2.length = calls.length) ∧
    ((execute_actions cfg cwd exec ids clock calls s k).1.total_tool_calls =
       s.total_tool_calls + calls.length) ∧
    (countTC (execute_actions cfg cwd exec ids clock calls s k).1.messages =
       countTC s.messages + calls.length) := by
  induction calls generalizing s k with
  | nil => simp [execute_actions]
  | cons c cs ih =>
      obtain ⟨hstep1, hstep2, hstep3⟩ :=
        execStep_counts cfg cwd exec c s (ids k).1 (ids k).2 (clock k)
      obtain ⟨ih1, ih2, ih3, ih4⟩ :=
        ih (execStep cfg cwd exec c s (ids k).1 (ids k).2 (clock k)).1 (k + 1)
      refine ⟨?_, ?_, ?_, ?_⟩
      · simp [execute_actions, ih1, hstep3]
      · simp [execute_actions, ih2]
      · simp only [execute_actions]
        rw [ih3, hstep2]
        simp only [List.length_cons]
        push_cast
        ring
      · simp only [execute_actions]
        rw [ih4, hstep1]
        simp only [List.length_cons]
        omega
end Manus
